import Mathlib

/-!
Shallow embedding of the agentic-RAG orchestration implemented in
src/script.js (the graph built from generateQueryOrRespond, gradeDocuments,
rewrite, generate, shouldRetrieve and the conditional edges).

Modelling conventions:
- A LangChain message is a `Message` with a `role` mirroring the JS message
  classes (HumanMessage = user, AIMessage = assistant, ToolMessage = tool,
  SystemMessage = system).
- The chat model (LLM gateway) is an oracle parameter: a pure function from
  the message list handed to `model.invoke` to the reply message.
- A tool's `invoke` either returns a string result (`Except.ok`) or throws
  (`Except.error msg`, where `msg` plays the part of `err.message`).
- `Promise.all` over `tool_calls.map` is modelled two ways: the value it
  returns is `List.map` over the calls (JS semantics: results are placed at
  the index of their call), and, to make completion-order independence
  provable, `assembleByIndex` reassembles results from an arbitrary arrival
  order (any permutation of the call indices).
-/

namespace RagAgent

/-- Message roles, one per LangChain message class imported by script.js. -/
inductive Role
  | user
  | assistant
  | tool
  | system
deriving DecidableEq, Repr

/-- One entry of an AIMessage's tool_calls array: name, args, id. -/
structure ToolCall where
  name : String
  args : String
  id : String
deriving DecidableEq, Repr

/-- A conversation message: role, content, tool_calls (meaningful on
assistant messages), tool_call_id (meaningful on tool messages). -/
structure Message where
  role : Role
  content : String
  tool_calls : List ToolCall
  tool_call_id : String
deriving DecidableEq, Repr

def mkHumanMessage (content : String) : Message :=
  ⟨Role.user, content, [], ""⟩

def mkAIMessage (content : String) (calls : List ToolCall) : Message :=
  ⟨Role.assistant, content, calls, ""⟩

def mkToolMessage (content : String) (tool_call_id : String) : Message :=
  ⟨Role.tool, content, [], tool_call_id⟩

def mkSystemMessage (content : String) : Message :=
  ⟨Role.system, content, [], ""⟩

/-- JS `m instanceof HumanMessage`. -/
def isHumanMessage : Message → Bool
  | ⟨Role.user, _, _, _⟩ => true
  | _ => false

/-- JS `m instanceof AIMessage` (also `AIMessage.isInstance(m)`). -/
def isAIMessage : Message → Bool
  | ⟨Role.assistant, _, _, _⟩ => true
  | _ => false

/-- JS `m instanceof ToolMessage`. -/
def isToolMessage : Message → Bool
  | ⟨Role.tool, _, _, _⟩ => true
  | _ => false

/-- A registry entry: a named tool whose invoke returns a string or throws. -/
structure Tool where
  name : String
  invoke : String → Except String String

/-- The body of the `response.tool_calls.map` callback in
generateQueryOrRespond (script.js lines 119-142): resolve the tool by name,
default result "Tool execution error", invoke inside try/catch, wrap the
outcome in a ToolMessage carrying the call's id. -/
def runToolCall (tools : List Tool) (toolCall : ToolCall) : Message :=
  let toolObj := tools.find? (fun t => t.name == toolCall.name)
  let toolResult : String :=
    match toolObj with
    | some t =>
      match t.invoke toolCall.args with
      | Except.ok r => r
      | Except.error msg => "Error: " ++ msg
    | none => "Tool execution error"
  mkToolMessage toolResult toolCall.id

/-- The value of `await Promise.all(response.tool_calls.map(...))`:
one ToolMessage per call, at the call's index. -/
def toolResponses (tools : List Tool) (calls : List ToolCall) : List Message :=
  calls.map (runToolCall tools)

/-- The filtered view `cleanMessages` of script.js lines 102-107: keep only
Human-, AI- and ToolMessages. -/
def cleanMessages (messages : List Message) : List Message :=
  messages.filter (fun m => isHumanMessage m || isAIMessage m || isToolMessage m)

/-- generateQueryOrRespond (script.js lines 90-153), with the bound chat
model abstracted as the `gateway` oracle. The first invocation runs over the
filtered view; when the reply carries tool calls, all calls are resolved,
`updatedMessages` is built as [...messages, response, ...toolResponses] and
passed to exactly one more invocation, and the node returns
[...messages, finalResponse]. -/
def generateQueryOrRespond (gateway : List Message → Message) (tools : List Tool)
    (messages : List Message) : List Message :=
  let cleanMsgs := cleanMessages messages
  let response := gateway cleanMsgs
  if 0 < response.tool_calls.length then
    let toolResps := toolResponses tools response.tool_calls
    let updatedMessages := messages ++ [response] ++ toolResps
    let response2 := gateway updatedMessages
    messages ++ [response2]
  else
    messages ++ [response]

/-- A raw structured-output field value as seen by the zod schema: either a
JSON string or something that is not a string. -/
inductive RawVal
  | str (s : String)
  | notStr
deriving DecidableEq, Repr

/-- The shape gradeDocumentsSchema accepts: an object with a string field
binaryScore (script.js lines 184-186). -/
structure GradeScore where
  binaryScore : String
deriving DecidableEq, Repr

/-- Parsing a raw structured output against gradeDocumentsSchema
(z.object with binaryScore being z.string): succeeds exactly when the field
binaryScore is present with a string value; any other shape is a schema
violation and throws. -/
def gradeDocumentsSchemaParse (raw : List (String × RawVal)) : Except String GradeScore :=
  match raw.find? (fun p => p.1 == "binaryScore") with
  | some (_, RawVal.str s) => Except.ok ⟨s⟩
  | _ => Except.error "SchemaViolation"

/-- gradeDocuments (script.js lines 188-205): the structured-output model is
abstracted as `grader`, a function from (question, context) to the raw
structured output. question is messages.at(0).content and context is
messages.at(-1).content; accessing .at on an empty list yields undefined and
the .content access throws (modelled as Except.error "TypeError"). On a
schema violation the error propagates; otherwise binaryScore equal to "yes"
yields "generate" and anything else yields "rewrite". -/
def gradeDocuments (grader : String → String → List (String × RawVal))
    (messages : List Message) : Except String String :=
  match messages.head?, messages.getLast? with
  | some m0, some mLast =>
    match gradeDocumentsSchemaParse (grader m0.content mLast.content) with
    | Except.ok score =>
      if score.binaryScore == "yes" then Except.ok "generate" else Except.ok "rewrite"
    | Except.error e => Except.error e
  | _, _ => Except.error "TypeError"

/-- The conditional-edge function after the gradeDocuments node
(script.js lines 407-415): route on whether the last message's content is
the literal string "generate". `none` models the throw on an empty log. -/
def checkRelevanceRoute (messages : List Message) : Option String :=
  messages.getLast?.map (fun m => if m.content == "generate" then "generate" else "rewrite")

/-- The langgraph END sentinel. -/
def END : String := "__end__"

/-- shouldRetrieve (script.js lines 376-384): retrieve exactly when the last
message is an AIMessage with a truthy (non-zero length) tool_calls array;
otherwise END. On the empty log, at(-1) is undefined, AIMessage.isInstance
is false and END is returned. -/
def shouldRetrieve (messages : List Message) : String :=
  match messages.getLast? with
  | some lastMessage =>
    if isAIMessage lastMessage && lastMessage.tool_calls.length != 0 then "retrieve"
    else END
  | none => END

/-- The question read by rewrite (script.js line 254): messages.at(0)?.content. -/
def rewriteQuestionInput (messages : List Message) : Option String :=
  messages.head?.map (fun m => m.content)

/-- rewrite (script.js lines 252-264): invoke the free-form gateway on the
seed question and append the reply. -/
def rewrite (gateway : Option String → Message) (messages : List Message) : List Message :=
  messages ++ [gateway (rewriteQuestionInput messages)]

/-- The question read by generate (script.js line 302): messages.at(0)?.content. -/
def generateQuestionInput (messages : List Message) : Option String :=
  messages.head?.map (fun m => m.content)

/-- The context read by generate (script.js line 303): messages.at(-1)?.content. -/
def generateContextInput (messages : List Message) : Option String :=
  messages.getLast?.map (fun m => m.content)

/-- generate (script.js lines 300-328): invoke the free-form gateway on the
seed question and the latest content, append the reply. -/
def generate (gateway : Option String → Option String → Message)
    (messages : List Message) : List Message :=
  messages ++ [gateway (generateQuestionInput messages) (generateContextInput messages)]

/-- Placeholder call used as the getD default when indexing call lists. -/
def dummyCall : ToolCall :=
  ⟨"", "", ""⟩

/-- The settled value of the i-th promise in the Promise.all fan-out. -/
def resultAt (tools : List Tool) (calls : List ToolCall) (i : Nat) : Message :=
  runToolCall tools (calls.getD i dummyCall)

/-- The stream of (index, value) completion events when the promises settle
in the order given by `order`. -/
def scheduledArrivals (f : Nat → Message) (order : List Nat) : List (Nat × Message) :=
  order.map (fun i => (i, f i))

/-- How Promise.all assembles its result: slot i of the output holds the
value that arrived for index i, regardless of when it arrived. -/
def assembleByIndex (n : Nat) (arrivals : List (Nat × Message)) : List (Option Message) :=
  (List.range n).map (fun i => (arrivals.find? (fun p => p.1 == i)).map Prod.snd)

/-- A concrete gateway used for evaluating the node: it requests one
retrieval call when handed the single seed message and otherwise answers. -/
def gw0 : List Message → Message := fun l =>
  if l.length == 1 then mkAIMessage "" [⟨"retrieve_blog_posts", "q", "call1"⟩]
  else mkAIMessage "final answer" []

/-- A concrete registry holding one always-succeeding retrieval tool. -/
def tools0 : List Tool :=
  [⟨"retrieve_blog_posts", fun _ => Except.ok "docs"⟩]

/-- A concrete grader whose structured output is the non-binary label
"maybe" (a string, so it passes the z.string() schema). -/
def graderMaybe : String → String → List (String × RawVal) :=
  fun _ _ => [("binaryScore", RawVal.str "maybe")]

/-- A concrete grader answering the binary label "yes" (relevant). -/
def graderYes : String → String → List (String × RawVal) :=
  fun _ _ => [("binaryScore", RawVal.str "yes")]

/-- The seed question of the irrelevant-documents scenario exercised in
script.js's commented test input. -/
def demoSeed : Message :=
  mkHumanMessage "What does Lilian Weng say about types of reward hacking?"

/-- The tool turn of the scenario: retrieval returned the literal "meow". -/
def demoToolTurn : Message :=
  mkToolMessage "meow" "1"

/-- The scenario state reaching gradeDocuments: seed question, assistant
tool-call turn, tool turn with irrelevant content. -/
def demoMessages : List Message :=
  [demoSeed, mkAIMessage "" [⟨"retrieve_blog_posts", "types of reward hacking", "1"⟩],
   demoToolTurn]

/-- A concrete tool that throws on the argument "boom". -/
def toolBoom : Tool :=
  ⟨"t", fun a => if a == "boom" then Except.error "kaboom" else Except.ok "good"⟩

def tools6 : List Tool := [toolBoom]

/-- Two sibling calls to toolBoom: the first succeeds, the second throws. -/
def calls6 : List ToolCall := [⟨"t", "fine", "A"⟩, ⟨"t", "boom", "B"⟩]

/-- A concrete registry with two tools, for the order-preservation witness. -/
def tools5 : List Tool :=
  [⟨"a", fun _ => Except.ok "ra"⟩, ⟨"b", fun _ => Except.ok "rb"⟩]

/-- Two concrete calls dispatched in one batch. -/
def calls5 : List ToolCall := [⟨"a", "x", "1"⟩, ⟨"b", "y", "2"⟩]

/-- Every (index, value) pair arriving for slot i of a batch of n promises
is the pair produced by promise i, whatever the completion order. -/
theorem find?_scheduledArrivals (f : Nat → Message) (order : List Nat) (n i : Nat)
    (hperm : order.Perm (List.range n)) (hi : i < n) :
    (scheduledArrivals f order).find? (fun p => p.1 == i) = some (i, f i) := by
  have hmem : i ∈ order := hperm.mem_iff.mpr (List.mem_range.mpr hi)
  have hmem2 : (i, f i) ∈ scheduledArrivals f order :=
    List.mem_map.mpr ⟨i, hmem, rfl⟩
  have hsome : ((scheduledArrivals f order).find? (fun p => p.1 == i)).isSome :=
    List.find?_isSome.mpr ⟨(i, f i), hmem2, by simp⟩
  obtain ⟨x, hx⟩ := Option.isSome_iff_exists.mp hsome
  have hxmem := List.mem_of_find?_eq_some hx
  have hxp := List.find?_some hx
  rcases List.mem_map.mp hxmem with ⟨j, _, rfl⟩
  have hji : j = i := by simpa using hxp
  subst hji
  exact hx

/-- Assembling by index recovers exactly the per-index values, for every
completion order that settles each promise once. -/
theorem assembleByIndex_scheduledArrivals (f : Nat → Message) (order : List Nat) (n : Nat)
    (hperm : order.Perm (List.range n)) :
    assembleByIndex n (scheduledArrivals f order)
      = (List.range n).map (fun i => some (f i)) := by
  unfold assembleByIndex
  apply List.map_congr_left
  intro i hin
  rw [find?_scheduledArrivals f order n i hperm (List.mem_range.mp hin)]
  rfl

/-- Mapping a function over positional reads of a list is mapping it over
the list. -/
theorem range_length_map_getD {α β : Type} (g : α → β) (d : α) :
    ∀ l : List α, (List.range l.length).map (fun i => g (l.getD i d)) = l.map g
  | [] => rfl
  | x :: xs => by
    rw [List.length_cons, List.range_succ_eq_map, List.map_cons, List.map_map]
    have h2 : ∀ i ∈ List.range xs.length,
        ((fun i => g ((x :: xs).getD i d)) ∘ Nat.succ) i = (fun i => g (xs.getD i d)) i := by
      intro i _
      simp [List.getD_cons_succ]
    rw [List.map_congr_left h2, range_length_map_getD g d xs, List.getD_cons_zero,
      List.map_cons]

/-- Evaluation of gradeDocuments on a log whose first and last entries are
known: the verdict is computed from the schema-parsed grader output. -/
theorem gradeDocuments_eq (grader : String → String → List (String × RawVal))
    (messages : List Message) (m0 mL : Message)
    (h0 : messages.head? = some m0) (hL : messages.getLast? = some mL) :
    gradeDocuments grader messages =
      match gradeDocumentsSchemaParse (grader m0.content mL.content) with
      | Except.ok score =>
        if score.binaryScore == "yes" then Except.ok "generate" else Except.ok "rewrite"
      | Except.error e => Except.error e := by
  unfold gradeDocuments
  rw [h0, hL]

/-- Claim C1 (as stated, refuted): when the model's reply carries tool calls,
the returned log extension is claimed to contain the tool-call assistant
turn, every ToolResult turn, and the post-tool reply. On a concrete run the
reply does carry a tool call, yet the returned log is only the input log
plus the post-tool reply: neither the tool-call assistant turn nor the
ToolResult turn is in the returned log. -/
theorem C1_counterexample :
    0 < (gw0 (cleanMessages [mkHumanMessage "question"])).tool_calls.length ∧
    generateQueryOrRespond gw0 tools0 [mkHumanMessage "question"]
      = [mkHumanMessage "question", mkAIMessage "final answer" []] ∧
    gw0 (cleanMessages [mkHumanMessage "question"]) ∉
      generateQueryOrRespond gw0 tools0 [mkHumanMessage "question"] ∧
    mkToolMessage "docs" "call1" ∉
      generateQueryOrRespond gw0 tools0 [mkHumanMessage "question"] := by
  decide

/-- Claim C1, amended: when the reply carries tool calls, the node performs
exactly one more gateway invocation, over the extended list made of the
input log, the original reply, and all ToolResults in call order; but the
log it returns is only the input log followed by that post-tool reply. -/
theorem C1_post_tool_reply_only (gateway : List Message → Message) (tools : List Tool)
    (messages : List Message)
    (h : 0 < (gateway (cleanMessages messages)).tool_calls.length) :
    generateQueryOrRespond gateway tools messages
      = messages ++ [gateway (messages ++ [gateway (cleanMessages messages)]
          ++ toolResponses tools (gateway (cleanMessages messages)).tool_calls)] := by
  simp only [generateQueryOrRespond, if_pos h]

/-- Claim C1, witness for the amended statement at a concrete run. -/
theorem C1_witness :
    generateQueryOrRespond gw0 tools0 [mkHumanMessage "question"]
      = [mkHumanMessage "question"] ++ [gw0 ([mkHumanMessage "question"]
          ++ [gw0 (cleanMessages [mkHumanMessage "question"])]
          ++ toolResponses tools0 (gw0 (cleanMessages [mkHumanMessage "question"])).tool_calls)] :=
  C1_post_tool_reply_only gw0 tools0 [mkHumanMessage "question"] (by decide)

/-- Claim C2 (code bug): the grader's verdict on the scenario state is
relevant ("generate", since binaryScore is "yes"), yet the conditional edge
after the gradeDocuments node routes on the last message's content — the
tool output "meow" — and therefore selects "rewrite", contradicting
verdict-determined routing. -/
theorem C2_routing_ignores_verdict :
    gradeDocuments graderYes demoMessages = Except.ok "generate" ∧
    checkRelevanceRoute demoMessages = some "rewrite" :=
  ⟨rfl, rfl⟩

/-- Claim C3 (as stated, refuted): the grader output with binaryScore
"maybe" does not conform to a binary yes/no label, yet gradeDocuments maps
it to the routing verdict "rewrite" instead of failing. -/
theorem C3_counterexample :
    gradeDocuments graderMaybe demoMessages = Except.ok "rewrite" ∧
    "maybe" ≠ "yes" ∧ "maybe" ≠ "no" :=
  ⟨rfl, by decide, by decide⟩

/-- Claim C3, amended: grader outputs violating the declared schema (no
string binaryScore field) propagate as an error and are never mapped to a
verdict; but any string value passes the schema, with exactly "yes" mapped
to generate and every other string — binary or not — silently mapped to
rewrite. -/
theorem C3_schema_handling (grader : String → String → List (String × RawVal))
    (messages : List Message) (m0 mL : Message) (e s : String)
    (h0 : messages.head? = some m0) (hL : messages.getLast? = some mL) :
    (gradeDocumentsSchemaParse (grader m0.content mL.content) = Except.error e →
      gradeDocuments grader messages = Except.error e) ∧
    (gradeDocumentsSchemaParse (grader m0.content mL.content) = Except.ok ⟨s⟩ → s ≠ "yes" →
      gradeDocuments grader messages = Except.ok "rewrite") ∧
    (gradeDocumentsSchemaParse (grader m0.content mL.content) = Except.ok ⟨"yes"⟩ →
      gradeDocuments grader messages = Except.ok "generate") := by
  rw [gradeDocuments_eq grader messages m0 mL h0 hL]
  refine ⟨fun hp => by rw [hp], fun hp hs => by rw [hp]; simp [hs], fun hp => by rw [hp]; simp⟩

/-- Claim C3, witness for the amended statement at the concrete grader whose
output is the non-binary string "maybe". -/
theorem C3_witness :
    (gradeDocumentsSchemaParse (graderMaybe demoSeed.content demoToolTurn.content)
        = Except.error "SchemaViolation" →
      gradeDocuments graderMaybe demoMessages = Except.error "SchemaViolation") ∧
    (gradeDocumentsSchemaParse (graderMaybe demoSeed.content demoToolTurn.content)
        = Except.ok ⟨"maybe"⟩ → "maybe" ≠ "yes" →
      gradeDocuments graderMaybe demoMessages = Except.ok "rewrite") ∧
    (gradeDocumentsSchemaParse (graderMaybe demoSeed.content demoToolTurn.content)
        = Except.ok ⟨"yes"⟩ →
      gradeDocuments graderMaybe demoMessages = Except.ok "generate") :=
  C3_schema_handling graderMaybe demoMessages demoSeed demoToolTurn "SchemaViolation" "maybe"
    rfl rfl

/-- Claim C4: when the latest turn is an assistant turn with zero tool
calls, the router yields the END sentinel, terminating the run. -/
theorem C4_no_tool_calls_terminates (messages : List Message) (m : Message)
    (hlast : messages.getLast? = some m) (_hrole : m.role = Role.assistant)
    (hcalls : m.tool_calls = []) :
    shouldRetrieve messages = END := by
  unfold shouldRetrieve
  rw [hlast]
  simp [hcalls]

/-- Claim C4, witness at a concrete assistant reply with no tool calls. -/
theorem C4_witness : shouldRetrieve [mkAIMessage "hello" []] = END :=
  C4_no_tool_calls_terminates [mkAIMessage "hello" []] (mkAIMessage "hello" []) rfl rfl rfl

/-- Claim C5: the ToolResult sequence equals the original call order for
every completion order of the concurrently dispatched calls (the arrival
order is an arbitrary permutation of the call indices), and the result at
each index carries the id of the call at that index. -/
theorem C5_toolResults_preserve_call_order (tools : List Tool) (calls : List ToolCall)
    (order : List Nat) (i : Nat) (hperm : order.Perm (List.range calls.length)) :
    assembleByIndex calls.length (scheduledArrivals (resultAt tools calls) order)
      = (toolResponses tools calls).map some ∧
    ((toolResponses tools calls)[i]?).map Message.tool_call_id
      = (calls[i]?).map ToolCall.id := by
  constructor
  · rw [assembleByIndex_scheduledArrivals _ _ _ hperm]
    simp only [toolResponses, resultAt, List.map_map]
    exact range_length_map_getD (fun c => some (runToolCall tools c)) dummyCall calls
  · cases hc : calls[i]? with
    | none => simp [toolResponses, List.getElem?_map, hc]
    | some c =>
      have hid : (runToolCall tools c).tool_call_id = c.id := rfl
      simp [toolResponses, List.getElem?_map, hc, hid]

/-- Claim C5, witness with two calls completing in reverse order. -/
theorem C5_witness :
    assembleByIndex calls5.length (scheduledArrivals (resultAt tools5 calls5) [1, 0])
      = (toolResponses tools5 calls5).map some ∧
    ((toolResponses tools5 calls5)[0]?).map Message.tool_call_id
      = (calls5[0]?).map ToolCall.id :=
  C5_toolResults_preserve_call_order tools5 calls5 [1, 0] 0 (by decide)

/-- Claim C6: a call whose tool invocation throws yields a ToolResult whose
content is the error description, the batch still yields one result per
call, and every sibling call's slot holds its own tool-role result carrying
its own call id. -/
theorem C6_failing_call_isolated (tools : List Tool) (calls : List ToolCall)
    (c : ToolCall) (t : Tool) (msg : String) (i j : Nat) (d : ToolCall)
    (hfind : tools.find? (fun tl => tl.name == c.name) = some t)
    (herr : t.invoke c.args = Except.error msg)
    (hj : calls[j]? = some c) (hi : calls[i]? = some d) :
    runToolCall tools c = mkToolMessage ("Error: " ++ msg) c.id ∧
    (toolResponses tools calls).length = calls.length ∧
    (toolResponses tools calls)[j]? = some (mkToolMessage ("Error: " ++ msg) c.id) ∧
    (toolResponses tools calls)[i]? = some (runToolCall tools d) ∧
    (runToolCall tools d).role = Role.tool ∧
    (runToolCall tools d).tool_call_id = d.id := by
  have hrun : runToolCall tools c = mkToolMessage ("Error: " ++ msg) c.id := by
    simp [runToolCall, hfind, herr]
  refine ⟨hrun, by simp [toolResponses], ?_, ?_, rfl, rfl⟩
  · simp [toolResponses, List.getElem?_map, hj, hrun]
  · simp [toolResponses, List.getElem?_map, hi]

/-- Claim C6, witness: call B throws while call A succeeds; both slots hold
their own ToolResult. -/
theorem C6_witness :
    runToolCall tools6 ⟨"t", "boom", "B"⟩ = mkToolMessage ("Error: " ++ "kaboom") "B" ∧
    (toolResponses tools6 calls6).length = calls6.length ∧
    (toolResponses tools6 calls6)[1]? = some (mkToolMessage ("Error: " ++ "kaboom") "B") ∧
    (toolResponses tools6 calls6)[0]? = some (runToolCall tools6 ⟨"t", "fine", "A"⟩) ∧
    (runToolCall tools6 ⟨"t", "fine", "A"⟩).role = Role.tool ∧
    (runToolCall tools6 ⟨"t", "fine", "A"⟩).tool_call_id = "A" :=
  C6_failing_call_isolated tools6 calls6 ⟨"t", "boom", "B"⟩ toolBoom "kaboom" 0 1
    ⟨"t", "fine", "A"⟩ rfl rfl rfl rfl

/-- Claim C7: a call whose name resolves to no registry entry yields the
error-content ToolResult "Tool execution error" carrying the call's id, the
batch still yields one result per call, and that result sits at the call's
slot. -/
theorem C7_unknown_tool_yields_error_result (tools : List Tool) (calls : List ToolCall)
    (call : ToolCall) (i : Nat)
    (hfind : tools.find? (fun t => t.name == call.name) = none)
    (hi : calls[i]? = some call) :
    runToolCall tools call = mkToolMessage "Tool execution error" call.id ∧
    (toolResponses tools calls)[i]? = some (mkToolMessage "Tool execution error" call.id) ∧
    (toolResponses tools calls).length = calls.length := by
  have hrun : runToolCall tools call = mkToolMessage "Tool execution error" call.id := by
    simp [runToolCall, hfind]
  exact ⟨hrun, by simp [toolResponses, List.getElem?_map, hi, hrun], by simp [toolResponses]⟩

/-- Claim C7, witness with an empty registry. -/
theorem C7_witness :
    runToolCall [] ⟨"nope", "a", "X"⟩ = mkToolMessage "Tool execution error" "X" ∧
    (toolResponses [] [⟨"nope", "a", "X"⟩])[0]?
      = some (mkToolMessage "Tool execution error" "X") ∧
    (toolResponses [] [⟨"nope", "a", "X"⟩]).length = [(⟨"nope", "a", "X"⟩ : ToolCall)].length :=
  C7_unknown_tool_yields_error_result [] [⟨"nope", "a", "X"⟩] ⟨"nope", "a", "X"⟩ 0 rfl rfl

/-- Claim C8: rewrite and generate read the seed turn at position 0 as their
question input, for every log and regardless of what follows the seed, and
append their reply to the unchanged log. -/
theorem C8_seed_anchoring (gwR : Option String → Message)
    (gwG : Option String → Option String → Message) (m0 : Message) (rest : List Message) :
    rewriteQuestionInput (m0 :: rest) = some m0.content ∧
    generateQuestionInput (m0 :: rest) = some m0.content ∧
    rewrite gwR (m0 :: rest) = (m0 :: rest) ++ [gwR (some m0.content)] ∧
    generate gwG (m0 :: rest)
      = (m0 :: rest) ++ [gwG (some m0.content) (generateContextInput (m0 :: rest))] :=
  ⟨rfl, rfl, rfl, rfl⟩

/-- Claim C9: the view handed to the first gateway invocation keeps exactly
the user-, assistant- and tool-role turns (a membership characterization and
an order-preserving sublist), and the node returns the input log unchanged
followed by some extension. -/
theorem C9_filtered_gateway_view (gateway : List Message → Message) (tools : List Tool)
    (messages : List Message) (m : Message) :
    (m ∈ cleanMessages messages ↔ m ∈ messages ∧ m.role ≠ Role.system) ∧
    (cleanMessages messages).Sublist messages ∧
    ∃ ext, generateQueryOrRespond gateway tools messages = messages ++ ext := by
  refine ⟨?_, List.filter_sublist messages, ?_⟩
  · rw [cleanMessages, List.mem_filter]
    rcases m with ⟨r, c, tc, id⟩
    cases r <;> simp [isHumanMessage, isAIMessage, isToolMessage]
  · by_cases h : 0 < (gateway (cleanMessages messages)).tool_calls.length
    · refine ⟨[gateway (messages ++ [gateway (cleanMessages messages)]
          ++ toolResponses tools (gateway (cleanMessages messages)).tool_calls)], ?_⟩
      simp only [generateQueryOrRespond, if_pos h]
    · refine ⟨[gateway (cleanMessages messages)], ?_⟩
      simp only [generateQueryOrRespond, if_neg h]

/-- Claim C10: the router returns "retrieve" exactly when the latest message
is an assistant turn with a non-empty tool-call list; whenever the latest
message is not an assistant turn at all, it returns END. -/
theorem C10_retrieve_iff_assistant_with_calls (messages : List Message) (m : Message)
    (hlast : messages.getLast? = some m) :
    (shouldRetrieve messages = "retrieve" ↔ isAIMessage m = true ∧ m.tool_calls ≠ []) ∧
    (isAIMessage m = false → shouldRetrieve messages = END) := by
  have hred : shouldRetrieve messages
      = if isAIMessage m && m.tool_calls.length != 0 then "retrieve" else END := by
    unfold shouldRetrieve
    rw [hlast]
  rw [hred]
  by_cases hcond : (isAIMessage m && m.tool_calls.length != 0) = true
  · rw [if_pos hcond]
    rw [Bool.and_eq_true, bne_iff_ne, ne_eq, List.length_eq_zero] at hcond
    refine ⟨⟨fun _ => hcond, fun _ => rfl⟩, fun hA => ?_⟩
    rw [hA] at hcond
    exact absurd hcond.1 (by simp)
  · rw [if_neg hcond]
    rw [Bool.and_eq_true, bne_iff_ne, ne_eq, List.length_eq_zero] at hcond
    refine ⟨⟨fun h => absurd h (by decide), fun hr => absurd hr hcond⟩, fun _ => rfl⟩

/-- Claim C10, witness at a latest message of tool role. -/
theorem C10_witness :
    (shouldRetrieve [mkToolMessage "meow" "1"] = "retrieve" ↔
      isAIMessage (mkToolMessage "meow" "1") = true ∧
        (mkToolMessage "meow" "1").tool_calls ≠ []) ∧
    (isAIMessage (mkToolMessage "meow" "1") = false →
      shouldRetrieve [mkToolMessage "meow" "1"] = END) :=
  C10_retrieve_iff_assistant_with_calls [mkToolMessage "meow" "1"] (mkToolMessage "meow" "1")
    rfl

end RagAgent
